import Mathlib

/-!
Shallow embedding of the oxpg value-marshaling layer
(src/errors.rs, src/client/config.rs, src/client/conversions.rs,
src/client/mod.rs).

Python runtime values, chrono temporal values and IEEE floats are
modelled as follows: temporal payloads are carried as abstract numeric
payloads (micros / days), an f64 is carried by its bit pattern as a
Nat (the claims only treat floats structurally), and the Rust `as f32`
rounding primitive is an explicit function argument `asF32` of the
embedded `refine_params`, so theorems hold for every rounding function.
Message texts produced by external libraries (pyo3 extraction errors)
are modelled by fixed strings; message texts built by this repository
are reproduced literally.
-/

namespace Oxpg

/-- Error enum from src/errors.rs (`OxpgError`). -/
inductive OxpgError where
  | MissingParameter (msg : String)
  | InvalidParameter (msg : String)
  | InvalidDsn (msg : String)
  | ConnectionFailed (msg : String)
  | RuntimeFailed (msg : String)
  | QueryFailed (msg : String)
  | ExecutionError (msg : String)
  | UnsupportedType (msg : String)
  | DataConversionError (msg : String)
  | Unexpected (msg : String)
deriving DecidableEq

/-- The Python exception classes registered in src/errors.rs. -/
inductive PyExcKind where
  | InterfaceError
  | DatabaseError
  | DataError
  | OperationalError
  | InternalError
deriving DecidableEq

/-- The `From<OxpgError> for PyErr` impl in src/errors.rs: which Python
exception class each error variant becomes, with its message. -/
def oxpgErrToPy : OxpgError → PyExcKind × String
  | .MissingParameter m => (.InterfaceError, m)
  | .InvalidParameter m => (.InterfaceError, m)
  | .InvalidDsn m => (.InterfaceError, m)
  | .ConnectionFailed m => (.OperationalError, m)
  | .RuntimeFailed m => (.OperationalError, m)
  | .QueryFailed m => (.DatabaseError, m)
  | .ExecutionError m => (.DatabaseError, m)
  | .UnsupportedType m => (.DataError, m)
  | .DataConversionError m => (.DataError, m)
  | .Unexpected m => (.InternalError, m)

/-- chrono::NaiveDate, abstracted to its day count. -/
structure NaiveDate where
  days : Int
deriving DecidableEq

/-- chrono::NaiveTime, abstracted to nanoseconds since midnight. -/
structure NaiveTime where
  nanos : Int
deriving DecidableEq

/-- chrono::NaiveDateTime, abstracted to microseconds since epoch. -/
structure NaiveDateTime where
  micros : Int
deriving DecidableEq

/-- chrono::DateTime<Utc>, abstracted to microseconds since epoch (UTC). -/
structure DateTimeUtc where
  micros : Int
deriving DecidableEq

/-- chrono: `DateTime::<Utc>::from_naive_utc_and_offset(naive, Utc)`:
interprets the naive instant as UTC. -/
def DateTimeUtc.fromNaiveUtc (n : NaiveDateTime) : DateTimeUtc := ⟨n.micros⟩

/-- chrono: `DateTime::<Utc>::naive_utc()`: the naive UTC instant. -/
def DateTimeUtc.naiveUtc (d : DateTimeUtc) : NaiveDateTime := ⟨d.micros⟩

/-- Python datetime.timedelta, by its normalized components, read as i64
by the source via `getattr`. -/
structure TimeDelta where
  days : Int
  seconds : Int
  microseconds : Int
deriving DecidableEq

/-- A dynamically-typed Python call argument, one constructor per runtime
type the source branches on; `pother` carries the type name of any other
Python type. A datetime or time carries its naive wall-clock payload
plus whether the Python object has a tzinfo attached: pyo3 refuses to
extract a chrono naive value from a tz-aware object. -/
inductive PyValue where
  | pbool (b : Bool)
  | pint (i : Int)
  | pfloat (bits : Nat)
  | pstr (s : String)
  | pnone
  | pbytes (bs : List Nat)
  | pbytearray (bs : List Nat)
  | pdatetime (dt : NaiveDateTime) (tzAware : Bool)
  | pdate (d : NaiveDate)
  | ptime (t : NaiveTime) (tzAware : Bool)
  | pdelta (td : TimeDelta)
  | pother (typeName : String)
deriving DecidableEq

/-- Python `isinstance(x, bool)`. -/
def isInstanceOfBool : PyValue → Bool
  | .pbool _ => true
  | _ => false

/-- Python `isinstance(x, int)`: true for ints and also for booleans,
since Python bool is a subtype of int. -/
def isInstanceOfInt : PyValue → Bool
  | .pbool _ => true
  | .pint _ => true
  | _ => false

/-- Python `isinstance(x, datetime.datetime)`. -/
def isInstanceOfDateTime : PyValue → Bool
  | .pdatetime _ _ => true
  | _ => false

/-- Python `isinstance(x, datetime.date)`: true for dates and also for
datetimes, since Python datetime is a subtype of date. -/
def isInstanceOfDate : PyValue → Bool
  | .pdatetime _ _ => true
  | .pdate _ => true
  | _ => false

/-- The `OwnedParam` enum of src/client/conversions.rs. Integer payloads
are Ints (the i16/i32 range is enforced by the wrapping narrowing at
construction); float payloads are f64/f32 bit patterns. -/
inductive OwnedParam where
  | Bool (b : Bool)
  | I16 (v : Int)
  | I32 (v : Int)
  | I64 (v : Int)
  | F32 (bits : Nat)
  | F64 (bits : Nat)
  | Text (s : String)
  | Bytes (bs : List Nat)
  | Date (d : NaiveDate)
  | Time (t : NaiveTime)
  | Timestamp (t : NaiveDateTime)
  | TimestampTz (t : DateTimeUtc)
  | Interval (s : String)
  | NullBool
  | NullI16
  | NullI32
  | NullI64
  | NullF32
  | NullF64
  | NullText
  | NullBytes
  | NullDate
  | NullTime
  | NullTimestamp
  | NullTimestampTz
  | NullUuid
deriving DecidableEq

/-- The tokio_postgres SQL types the source dispatches on; `other` is any
type outside that set, carried with its name and OID. -/
inductive PgType where
  | bool
  | bytea
  | date
  | int2
  | int4
  | int8
  | json
  | jsonb
  | numeric
  | float4
  | float8
  | text
  | varchar
  | bpchar
  | time
  | timestamp
  | timestamptz
  | uuid
  | other (typeName : String) (oid : Nat)
deriving DecidableEq

def i64Min : Int := -(2 ^ 63)

def i64Max : Int := 2 ^ 63 - 1

/-- Whether pyo3 extraction accepts the argument's payload: a Python int
must fit the i64 range (`extract::<i64>()`), and a datetime or time must
be naive — extracting chrono::NaiveDateTime / chrono::NaiveTime from a
tz-aware object fails. Every other supported runtime type extracts
unconditionally. -/
def payloadExtractable : PyValue → Bool
  | .pint i => decide (i64Min ≤ i ∧ i ≤ i64Max)
  | .pdatetime _ tzAware => !tzAware
  | .ptime _ tzAware => !tzAware
  | _ => true

/-- The textual interval literal built by extract_params from a
timedelta's (days, seconds, microseconds). -/
def intervalLiteral (days seconds microseconds : Int) : String :=
  toString days ++ " days " ++ toString seconds ++ " seconds "
    ++ toString microseconds ++ " microseconds"

/-- The UnsupportedType message of extract_params for an argument at
`idx` of Python type `typeName`. -/
def unsupportedTypeMsg (idx : Nat) (typeName : String) : String :=
  "Parameter at index " ++ toString idx ++ " is of type \x27" ++ typeName
    ++ "\x27, which is not supported. Supported types: int, float, bool, str, "
    ++ "bytes, bytearray, datetime, date, time, timedelta, None"

/-- One loop iteration of `extract_params` (src/client/conversions.rs,
Phase 1): classify the argument at `idx` by runtime type. The source
tests `is_instance_of` in a fixed order — bool before int, datetime
before date — which on the disjoint constructors of `PyValue` is this
match. A Python int outside the i64 range fails `extract::<i64>()`,
and a tz-aware datetime or time fails the chrono naive extraction, each
surfacing as the source's InvalidParameter wrapper; the pyo3 error text
interpolated into those messages is modelled by fixed strings. -/
def extractOne (idx : Nat) (arg : PyValue) : Except OxpgError OwnedParam :=
  match arg with
  | .pbool b => .ok (.Bool b)
  | .pint i =>
      if i64Min ≤ i ∧ i ≤ i64Max then .ok (.I64 i)
      else .error (.InvalidParameter ("Int arg " ++ toString idx ++ ": out of range for i64"))
  | .pfloat bits => .ok (.F64 bits)
  | .pstr s => .ok (.Text s)
  | .pnone => .ok .NullText
  | .pbytes bs => .ok (.Bytes bs)
  | .pbytearray bs => .ok (.Bytes bs)
  | .pdatetime dt tzAware =>
      if tzAware then
        .error (.InvalidParameter ("DateTime arg " ++ toString idx
          ++ ": expected a datetime without tzinfo"))
      else .ok (.TimestampTz (DateTimeUtc.fromNaiveUtc dt))
  | .pdate d => .ok (.Date d)
  | .ptime t tzAware =>
      if tzAware then
        .error (.InvalidParameter ("Time arg " ++ toString idx
          ++ ": expected a time without tzinfo"))
      else .ok (.Time t)
  | .pdelta td => .ok (.Interval (intervalLiteral td.days td.seconds td.microseconds))
  | .pother typeName => .error (.UnsupportedType (unsupportedTypeMsg idx typeName))

/-- `extract_params` from index `idx` on: extract each argument in order,
failing the whole extraction at the first bad argument. -/
def extractParamsFrom (idx : Nat) : List PyValue → Except OxpgError (List OwnedParam)
  | [] => .ok []
  | a :: rest => do
      let p ← extractOne idx a
      let ps ← extractParamsFrom (idx + 1) rest
      .ok (p :: ps)

/-- `extract_params` of src/client/conversions.rs: Phase-1,
statement-independent extraction of the whole argument tuple. -/
def extract_params (args : List PyValue) : Except OxpgError (List OwnedParam) :=
  extractParamsFrom 0 args

/-- Rust `v as i16` on an i64: two's-complement truncation to 16 bits. -/
def wrap16 (v : Int) : Int := (v + 2 ^ 15) % 2 ^ 16 - 2 ^ 15

/-- Rust `v as i32` on an i64: two's-complement truncation to 32 bits. -/
def wrap32 (v : Int) : Int := (v + 2 ^ 31) % 2 ^ 32 - 2 ^ 31

/-- One match step of `refine_params` (src/client/conversions.rs,
Phase 2): rewrite one parameter given the statement's expected type at
its position; the source's `_ => continue` arm leaves it unchanged.
`asF32` is the Rust `as f32` rounding primitive on f64 bit patterns. -/
def refineOne (asF32 : Nat → Nat) (expected : PgType) (p : OwnedParam) : OwnedParam :=
  match p, expected with
  | .I64 v, .int2 => .I16 (wrap16 v)
  | .I64 v, .int4 => .I32 (wrap32 v)
  | .F64 bits, .float4 => .F32 (asF32 bits)
  | .TimestampTz dt, .timestamp => .Timestamp dt.naiveUtc
  | .NullText, .bool => .NullBool
  | .NullText, .int2 => .NullI16
  | .NullText, .int4 => .NullI32
  | .NullText, .int8 => .NullI64
  | .NullText, .float4 => .NullF32
  | .NullText, .float8 => .NullF64
  | .NullText, .bytea => .NullBytes
  | .NullText, .date => .NullDate
  | .NullText, .time => .NullTime
  | .NullText, .timestamp => .NullTimestamp
  | .NullText, .timestamptz => .NullTimestampTz
  | .NullText, .uuid => .NullUuid
  | _, _ => p

/-- `refine_params` of src/client/conversions.rs: in-place rewrite of each
parameter whose index has an expected type in the statement's parameter
type list (`statement.params().get(idx)`); positions at or beyond that
list are skipped by the `let Some(expected) ... else continue`. -/
def refine_params (asF32 : Nat → Nat) (stmtParams : List PgType)
    (params : List OwnedParam) : List OwnedParam :=
  params.mapIdx fun idx p =>
    match stmtParams[idx]? with
    | some expected => refineOne asF32 expected p
    | none => p

/-- The null parameter variant matching an expected SQL type, as the spec
words it: boolean, int2, int4, int8, float4, float8, bytes, date, time,
timestamp, timestamp-with-zone and uuid each get their null variant; any
other (or unknown) expected type keeps the text null. Spec-side
definition, to be compared with `refineOne`. -/
def expectedNullSpec : PgType → OwnedParam
  | .bool => .NullBool
  | .int2 => .NullI16
  | .int4 => .NullI32
  | .int8 => .NullI64
  | .float4 => .NullF32
  | .float8 => .NullF64
  | .bytea => .NullBytes
  | .date => .NullDate
  | .time => .NullTime
  | .timestamp => .NullTimestamp
  | .timestamptz => .NullTimestampTz
  | .uuid => .NullUuid
  | _ => .NullText

/-- Phase-2 refinement of one parameter as the spec describes it: narrow
the widest integer at int2/int4 positions, the widest float at float4
positions, drop the zone of a zoned timestamp at a zone-less timestamp
position, resolve an untyped null to the expected type's null variant,
and leave every other parameter unchanged. Spec-side definition, to be
compared with `refineOne`. -/
def refineOneSpec (asF32 : Nat → Nat) (expected : PgType) (p : OwnedParam) : OwnedParam :=
  match p with
  | .I64 v =>
      match expected with
      | .int2 => .I16 (wrap16 v)
      | .int4 => .I32 (wrap32 v)
      | _ => p
  | .F64 bits => if expected = .float4 then .F32 (asF32 bits) else p
  | .TimestampTz dt => if expected = .timestamp then .Timestamp dt.naiveUtc else p
  | .NullText => expectedNullSpec expected
  | _ => p

/-- The closed set of Phase-1 classification buckets named by the spec:
boolean, widest integer, widest float, text, byte sequence, date, time,
provisionally-zoned timestamp, duration, untyped null. -/
inductive ParamClass where
  | booleanC
  | wideIntC
  | wideFloatC
  | textC
  | byteSeqC
  | dateC
  | timeC
  | zonedTimestampC
  | durationC
  | untypedNullC
deriving DecidableEq

/-- The bucket a Phase-1 output parameter belongs to; `none` for variants
Phase 1 never produces. -/
def classOfParam : OwnedParam → Option ParamClass
  | .Bool _ => some .booleanC
  | .I64 _ => some .wideIntC
  | .F64 _ => some .wideFloatC
  | .Text _ => some .textC
  | .Bytes _ => some .byteSeqC
  | .Date _ => some .dateC
  | .Time _ => some .timeC
  | .TimestampTz _ => some .zonedTimestampC
  | .Interval _ => some .durationC
  | .NullText => some .untypedNullC
  | _ => none

/-- The bucket the spec assigns to each supported Python runtime type;
`none` for a type outside the closed set. -/
def runtimeClass : PyValue → Option ParamClass
  | .pbool _ => some .booleanC
  | .pint _ => some .wideIntC
  | .pfloat _ => some .wideFloatC
  | .pstr _ => some .textC
  | .pnone => some .untypedNullC
  | .pbytes _ => some .byteSeqC
  | .pbytearray _ => some .byteSeqC
  | .pdatetime _ _ => some .zonedTimestampC
  | .pdate _ => some .dateC
  | .ptime _ _ => some .timeC
  | .pdelta _ => some .durationC
  | .pother _ => none

/-- `validate_connect_params` of src/client/config.rs. -/
def validate_connect_params (dsn host user password : Option String) :
    Except OxpgError Unit :=
  if dsn.isSome ∧ (host.isSome ∨ user.isSome ∨ password.isSome) then
    .error (.InvalidParameter
      "Cannot specify both DSN and individual connection parameters")
  else if dsn.isNone then
    if host.isNone then .error (.MissingParameter "host")
    else if user.isNone then .error (.MissingParameter "user")
    else if password.isNone then .error (.MissingParameter "password")
    else .ok ()
  else .ok ()

/-- Observable side effects of `connect` (src/client/mod.rs) after
validation: creating the Tokio runtime, then driving the driver's
network connect. -/
inductive ConnectEvent where
  | runtimeCreated
  | networkAttempt
deriving DecidableEq

/-- The fields `extract_host_from_dsn` returns / `connect` assembles:
host, user, port, db. -/
structure ConnFields where
  host : String
  user : String
  port : Nat
  db : String
deriving DecidableEq

/-- `connect` of src/client/mod.rs, with the external effects as oracles:
`dsnParse` stands for `extract_host_from_dsn` (pure string parsing, no
network), `runtimeRes` for `tokio::runtime::Runtime::new()`, and
`connectRes` for the driver's `config.connect(NoTls)`. The result pairs
the returned client fields (or error) with the ordered list of runtime /
network effects that were attempted. -/
def connect (dsnParse : String → Except OxpgError ConnFields)
    (runtimeRes : Except String Unit) (connectRes : Except String Unit)
    (dsn host user password : Option String) (port : Nat) (db : String) :
    Except OxpgError ConnFields × List ConnectEvent :=
  match validate_connect_params dsn host user password with
  | .error e => (.error e, [])
  | .ok _ =>
    let fieldsRes : Except OxpgError ConnFields :=
      match dsn with
      | some s => dsnParse s
      | none =>
        match host with
        | none => .error (.MissingParameter "host")
        | some h =>
          match user with
          | none => .error (.MissingParameter "user")
          | some u =>
            match password with
            | none => .error (.MissingParameter "password")
            | some _ => .ok ⟨h, u, port, db⟩
    match fieldsRes with
    | .error e => (.error e, [])
    | .ok fields =>
      match runtimeRes with
      | .error e =>
          (.error (.RuntimeFailed ("Failed to create Tokio runtime: " ++ e)),
           [.runtimeCreated])
      | .ok _ =>
        match connectRes with
        | .error e =>
            (.error (.ConnectionFailed ("Failed to connect to PostgreSQL: " ++ e)),
             [.runtimeCreated, .networkAttempt])
        | .ok _ => (.ok fields, [.runtimeCreated, .networkAttempt])

/-- A decoded wire scalar, as yielded by the driver's typed `get` /
`try_get` accessors at each supported column type: numeric is fetched as
its text form, json/jsonb as a parsed value carried by its compact
serialization, uuid by its canonical text. -/
inductive SqlScalar where
  | sbool (b : Bool)
  | sbytes (bs : List Nat)
  | sdate (d : NaiveDate)
  | si16 (v : Int)
  | si32 (v : Int)
  | si64 (v : Int)
  | sjson (compact : String)
  | snumeric (s : String)
  | sf32 (bits : Nat)
  | sf64 (bits : Nat)
  | stext (s : String)
  | stime (t : NaiveTime)
  | stimestamp (t : NaiveDateTime)
  | stimestamptz (t : DateTimeUtc)
  | suuid (s : String)
deriving DecidableEq

/-- A result column: name and declared SQL type (tokio_postgres
`Column`). -/
structure Column where
  name : String
  ty : PgType
deriving DecidableEq

/-- One row: each column paired with its cell, `none` being SQL NULL. -/
abbrev RowData := List (Column × Option SqlScalar)

/-- A Python value produced by row decoding. -/
inductive PyObj where
  | pyNone
  | pyBool (b : Bool)
  | pyInt (v : Int)
  | pyFloat (bits : Nat)
  | pyStr (s : String)
  | pyBytes (bs : List Nat)
  | pyDate (d : NaiveDate)
  | pyTime (t : NaiveTime)
  | pyDateTime (t : NaiveDateTime)
  | pyDateTimeTz (t : DateTimeUtc)
deriving DecidableEq

/-- The name of each supported SQL type as tokio_postgres prints it. -/
def PgType.name : PgType → String
  | .bool => "bool"
  | .bytea => "bytea"
  | .date => "date"
  | .int2 => "int2"
  | .int4 => "int4"
  | .int8 => "int8"
  | .json => "json"
  | .jsonb => "jsonb"
  | .numeric => "numeric"
  | .float4 => "float4"
  | .float8 => "float8"
  | .text => "text"
  | .varchar => "varchar"
  | .bpchar => "bpchar"
  | .time => "time"
  | .timestamp => "timestamp"
  | .timestamptz => "timestamptz"
  | .uuid => "uuid"
  | .other typeName _ => typeName

/-- The OID of each supported SQL type. -/
def PgType.oid : PgType → Nat
  | .bool => 16
  | .bytea => 17
  | .date => 1082
  | .int2 => 21
  | .int4 => 23
  | .int8 => 20
  | .json => 114
  | .jsonb => 3802
  | .numeric => 1700
  | .float4 => 700
  | .float8 => 701
  | .text => 25
  | .varchar => 1043
  | .bpchar => 1042
  | .time => 1083
  | .timestamp => 1114
  | .timestamptz => 1184
  | .uuid => 2950
  | .other _ oid => oid

/-- A declared column type is in the supported decode set iff it is not
the wildcard arm of `row_to_dict`. -/
def supportedColumnType : PgType → Bool
  | .other _ _ => false
  | _ => true

/-- Whether a non-NULL cell scalar is the one the driver yields at a
column of the given type (text, varchar and bpchar all decode as text;
json and jsonb both as a parsed value). -/
def cellWellTyped : PgType → Option SqlScalar → Bool
  | _, none => true
  | .bool, some (.sbool _) => true
  | .bytea, some (.sbytes _) => true
  | .date, some (.sdate _) => true
  | .int2, some (.si16 _) => true
  | .int4, some (.si32 _) => true
  | .int8, some (.si64 _) => true
  | .json, some (.sjson _) => true
  | .jsonb, some (.sjson _) => true
  | .numeric, some (.snumeric _) => true
  | .float4, some (.sf32 _) => true
  | .float8, some (.sf64 _) => true
  | .text, some (.stext _) => true
  | .varchar, some (.stext _) => true
  | .bpchar, some (.stext _) => true
  | .time, some (.stime _) => true
  | .timestamp, some (.stimestamp _) => true
  | .timestamptz, some (.stimestamptz _) => true
  | .uuid, some (.suuid _) => true
  | _, some _ => false

/-- The UnsupportedType message of `row_to_dict` for a column outside
the supported decode set. -/
def unsupportedColumnMsg (typeName : String) (oid : Nat) (colName : String) : String :=
  "Unsupported Postgres type \x27" ++ typeName ++ "\x27 (OID " ++ toString oid
    ++ ") for column \x27" ++ colName ++ "\x27"

/-- One arm of the per-column dispatch of `row_to_dict`
(src/client/conversions.rs): decode one cell at its column's declared
type. SQL NULL decodes to the Python None at every supported type
(`Option<T>` conversion); json/jsonb serialize the parsed value back to
compact text; numeric and uuid decode to their text forms; a type
outside the set is the wildcard arm's UnsupportedType error. A cell the
driver cannot read at the requested Rust type surfaces as a data
conversion error (in the source a driver-level failure), never as a
value. -/
def decodeCell (c : Column) (cell : Option SqlScalar) : Except OxpgError PyObj :=
  match c.ty with
  | .other typeName oid =>
      .error (.UnsupportedType (unsupportedColumnMsg typeName oid c.name))
  | ty =>
    match cell with
    | none => .ok .pyNone
    | some s =>
      match ty, s with
      | .bool, .sbool b => .ok (.pyBool b)
      | .bytea, .sbytes bs => .ok (.pyBytes bs)
      | .date, .sdate d => .ok (.pyDate d)
      | .int2, .si16 v => .ok (.pyInt v)
      | .int4, .si32 v => .ok (.pyInt v)
      | .int8, .si64 v => .ok (.pyInt v)
      | .json, .sjson compact => .ok (.pyStr compact)
      | .jsonb, .sjson compact => .ok (.pyStr compact)
      | .numeric, .snumeric str => .ok (.pyStr str)
      | .float4, .sf32 bits => .ok (.pyFloat bits)
      | .float8, .sf64 bits => .ok (.pyFloat bits)
      | .text, .stext str => .ok (.pyStr str)
      | .varchar, .stext str => .ok (.pyStr str)
      | .bpchar, .stext str => .ok (.pyStr str)
      | .time, .stime t => .ok (.pyTime t)
      | .timestamp, .stimestamp t => .ok (.pyDateTime t)
      | .timestamptz, .stimestamptz t => .ok (.pyDateTimeTz t)
      | .uuid, .suuid str => .ok (.pyStr str)
      | ty2, _ =>
          .error (.DataConversionError
            ("Failed to convert " ++ PgType.name ty2 ++ " column \x27"
              ++ c.name ++ "\x27"))

/-- Python dict assignment `d[k] = v`: overwrite in place when the key
exists (keeping its original position), append otherwise. -/
def setItem (d : List (String × PyObj)) (k : String) (v : PyObj) :
    List (String × PyObj) :=
  if d.any (fun kv => kv.1 = k) then
    d.map fun kv => if kv.1 = k then (k, v) else kv
  else d ++ [(k, v)]

/-- The loop of `row_to_dict`: decode columns left to right, inserting
each decoded value into the dict under the column's name; the first
failing column aborts the whole decode. -/
def rowToDictAux (acc : List (String × PyObj)) :
    RowData → Except OxpgError (List (String × PyObj))
  | [] => .ok acc
  | (c, cell) :: rest => do
      let v ← decodeCell c cell
      rowToDictAux (setItem acc c.name v) rest

/-- `row_to_dict` of src/client/conversions.rs: a whole row to a Python
dict, keyed by column name in server column order. -/
def row_to_dict (row : RowData) : Except OxpgError (List (String × PyObj)) :=
  rowToDictAux [] row

/-- The decoded value of one row cell, defaulting (unreachably, under a
decode-success hypothesis) to None. -/
def decodeValD (rc : Column × Option SqlScalar) : PyObj :=
  ((decodeCell rc.1 rc.2).toOption).getD .pyNone

/-- The decoded value of the LAST column named `k` in the row, if any:
the value Python dict overwrite semantics leaves under key `k`. -/
def lastDecodeOf (k : String) : RowData → Option PyObj
  | [] => none
  | rc :: rest =>
    match lastDecodeOf k rest with
    | some v => some v
    | none => if rc.1.name = k then some (decodeValD rc) else none

/-- A prepared statement: the server-inferred parameter types and the
result column descriptors (tokio_postgres `Statement`). -/
structure Statement where
  paramTypes : List PgType
  columns : List Column

/-- Decode each returned row in order; the first failing row aborts the
whole result (the row loop of `Client::query`). -/
def decodeRows : List RowData → Except OxpgError (List (List (String × PyObj)))
  | [] => .ok []
  | r :: rs => do
      let d ← row_to_dict r
      let ds ← decodeRows rs
      .ok (d :: ds)

/-- `Client::query` of src/client/mod.rs, with the driver as oracles:
`prep` stands for `client.prepare(&query)` and `exec` for
`client.query(&statement, ...)`, each either yielding a value or the
driver's diagnostic text. Extraction runs first; a prepare failure and
an execute failure are both wrapped as ExecutionError with the source's
two message prefixes (the driver's `{:?}` rendering is the oracle's
string). -/
def queryPipeline (prep : Except String Statement)
    (exec : Statement → List OwnedParam → Except String (List RowData))
    (asF32 : Nat → Nat) (args : List PyValue) :
    Except OxpgError (List (List (String × PyObj))) := do
  let ps ← extract_params args
  match prep with
  | .error e => .error (.ExecutionError ("Error while generating statement: " ++ e))
  | .ok stmt =>
    let refined := refine_params asF32 stmt.paramTypes ps
    match exec stmt refined with
    | .error e => .error (.ExecutionError ("Error while executing query: " ++ e))
    | .ok rows => decodeRows rows

/-- `Client::execute` of src/client/mod.rs, same shape as `queryPipeline`
but the oracle yields an affected-row count. -/
def executePipeline (prep : Except String Statement)
    (exec : Statement → List OwnedParam → Except String Nat)
    (asF32 : Nat → Nat) (args : List PyValue) : Except OxpgError Nat := do
  let ps ← extract_params args
  match prep with
  | .error e => .error (.ExecutionError ("Error while generating statement: " ++ e))
  | .ok stmt =>
    let refined := refine_params asF32 stmt.paramTypes ps
    match exec stmt refined with
    | .error e => .error (.ExecutionError ("Error while executing query: " ++ e))
    | .ok n => .ok n

/-- C3: Phase-2 refinement rewrites each parameter in place according to
the position's expected SQL type: I64 becomes I16 at int2 and I32 at
int4, F64 becomes F32 at float4, TimestampTz becomes a naive Timestamp
at a zone-less timestamp position, NullText becomes the matching null
variant for exactly boolean, int2, int4, int8, float4, float8, bytea,
date, time, timestamp, timestamptz and uuid and stays the text null
otherwise, and every other parameter is left unchanged — i.e. the source
rewrite coincides positionwise with the spec-side `refineOneSpec`. -/
theorem refine_params_matches_spec (asF32 : Nat → Nat) (stmtParams : List PgType)
    (params : List OwnedParam) :
    refine_params asF32 stmtParams params =
      params.mapIdx fun idx p =>
        match stmtParams[idx]? with
        | some expected => refineOneSpec asF32 expected p
        | none => p := by
  have h : ∀ e p, refineOne asF32 e p = refineOneSpec asF32 e p := by
    intro e p
    cases p <;> cases e <;> rfl
  unfold refine_params
  simp only [h]

/-- C4 counterexample: the i64 value 32768 refined at an int2 position
becomes the 16-bit parameter -32768, not 32768 — Rust `as i16` wraps, so
the refined value does not always equal the original. -/
theorem refine_int2_narrowing_cex :
    refineOne id PgType.int2 (OwnedParam.I64 32768) = OwnedParam.I16 (-32768) ∧
    OwnedParam.I16 (-32768) ≠ OwnedParam.I16 32768 := by
  constructor
  · decide
  · decide

/-- C4 (amended): for every i64 value v that fits the narrower range,
refining at an int2 (respectively int4) position yields a 16-bit
(respectively 32-bit) parameter whose value equals v; outside the range
the value is v wrapped two's-complement. -/
theorem refine_int_preserves_value_in_range (asF32 : Nat → Nat) (v : Int) :
    (-(2 ^ 15) ≤ v → v < 2 ^ 15 →
      refineOne asF32 PgType.int2 (OwnedParam.I64 v) = OwnedParam.I16 v) ∧
    (-(2 ^ 31) ≤ v → v < 2 ^ 31 →
      refineOne asF32 PgType.int4 (OwnedParam.I64 v) = OwnedParam.I32 v) := by
  constructor
  · intro h1 h2
    show OwnedParam.I16 (wrap16 v) = OwnedParam.I16 v
    have hw : wrap16 v = v := by
      unfold wrap16
      omega
    rw [hw]
  · intro h1 h2
    show OwnedParam.I32 (wrap32 v) = OwnedParam.I32 v
    have hw : wrap32 v = v := by
      unfold wrap32
      omega
    rw [hw]

/-- C4 witness: the in-range values 5 and 70000. -/
theorem refine_int_preserves_value_in_range_witness :
    refineOne id PgType.int2 (OwnedParam.I64 5) = OwnedParam.I16 5 ∧
    refineOne id PgType.int4 (OwnedParam.I64 70000) = OwnedParam.I32 70000 :=
  ⟨(refine_int_preserves_value_in_range id 5).1 (by decide) (by decide),
   (refine_int_preserves_value_in_range id 70000).2 (by decide) (by decide)⟩

/-- C5: every timedelta argument is marshaled as the textual interval
literal "{days} days {seconds} seconds {microseconds} microseconds"
built from its components — an Interval text variant, not a binary
interval. -/
theorem timedelta_text_interval (idx : Nat) (td : TimeDelta) :
    extractOne idx (PyValue.pdelta td) =
      .ok (OwnedParam.Interval (toString td.days ++ " days " ++ toString td.seconds
        ++ " seconds " ++ toString td.microseconds ++ " microseconds")) := rfl

/-- C9 counterexample: a timezone-aware Python datetime argument is not
classified as a timestamp — its chrono::NaiveDateTime extraction fails
with InvalidParameter, so no classification is produced. -/
theorem datetime_tzaware_not_classified_cex :
    extractOne 0 (PyValue.pdatetime ⟨0⟩ true) =
      .error (.InvalidParameter "DateTime arg 0: expected a datetime without tzinfo") := rfl

/-- C9 (amended): although a Python bool is an instance of int and a
Python datetime is an instance of date, the source tests bool before int
and datetime before date, so a boolean argument is always classified as
a SQL boolean and never as an integer, and a datetime argument is never
classified as a date: a naive datetime is classified as a
provisionally-zoned timestamp, while a tz-aware datetime fails
extraction with InvalidParameter instead of being classified. -/
theorem bool_before_int_datetime_before_date (idx : Nat) (b : Bool)
    (dt : NaiveDateTime) (tzAware : Bool) :
    isInstanceOfInt (PyValue.pbool b) = true ∧
    isInstanceOfBool (PyValue.pbool b) = true ∧
    extractOne idx (PyValue.pbool b) = .ok (OwnedParam.Bool b) ∧
    (∀ v : Int, extractOne idx (PyValue.pbool b) ≠ .ok (OwnedParam.I64 v)) ∧
    isInstanceOfDate (PyValue.pdatetime dt tzAware) = true ∧
    isInstanceOfDateTime (PyValue.pdatetime dt tzAware) = true ∧
    extractOne idx (PyValue.pdatetime dt false) =
      .ok (OwnedParam.TimestampTz (DateTimeUtc.fromNaiveUtc dt)) ∧
    extractOne idx (PyValue.pdatetime dt true) =
      .error (.InvalidParameter ("DateTime arg " ++ toString idx
        ++ ": expected a datetime without tzinfo")) ∧
    (∀ d : NaiveDate, extractOne idx (PyValue.pdatetime dt tzAware) ≠
      .ok (OwnedParam.Date d)) := by
  refine ⟨rfl, rfl, rfl, fun v h => ?_, rfl, rfl, rfl, rfl, fun d h => ?_⟩
  · simp [extractOne] at h
  · cases tzAware <;> simp [extractOne] at h

/-- C9 witness: concrete bool and datetime arguments at index 0. -/
theorem bool_before_int_datetime_before_date_witness :
    extractOne 0 (PyValue.pbool true) = .ok (OwnedParam.Bool true) ∧
    extractOne 0 (PyValue.pbool true) ≠ .ok (OwnedParam.I64 1) ∧
    extractOne 0 (PyValue.pdatetime ⟨0⟩ false) =
      .ok (OwnedParam.TimestampTz (DateTimeUtc.fromNaiveUtc ⟨0⟩)) ∧
    extractOne 0 (PyValue.pdatetime ⟨0⟩ true) =
      .error (.InvalidParameter ("DateTime arg " ++ toString 0
        ++ ": expected a datetime without tzinfo")) ∧
    extractOne 0 (PyValue.pdatetime ⟨0⟩ false) ≠ .ok (OwnedParam.Date ⟨0⟩) :=
  ⟨(bool_before_int_datetime_before_date 0 true ⟨0⟩ false).2.2.1,
   (bool_before_int_datetime_before_date 0 true ⟨0⟩ false).2.2.2.1 1,
   (bool_before_int_datetime_before_date 0 true ⟨0⟩ false).2.2.2.2.2.2.1,
   (bool_before_int_datetime_before_date 0 true ⟨0⟩ false).2.2.2.2.2.2.2.1,
   (bool_before_int_datetime_before_date 0 true ⟨0⟩ false).2.2.2.2.2.2.2.2 ⟨0⟩⟩

/-- C10: refinement is total and structure-preserving — it never fails
(it is a plain function to a list), keeps the number and order of
parameters (position k of the output is determined by position k of the
input), and leaves every position at or beyond the statement's declared
parameter count unchanged. -/
theorem refine_params_total_structure (asF32 : Nat → Nat) (stmtParams : List PgType)
    (params : List OwnedParam) :
    (refine_params asF32 stmtParams params).length = params.length ∧
    (∀ k : Nat, (refine_params asF32 stmtParams params)[k]? =
      (params[k]?).map fun p =>
        match (stmtParams[k]? : Option PgType) with
        | some expected => refineOne asF32 expected p
        | none => p) ∧
    (∀ k : Nat, stmtParams.length ≤ k →
      (refine_params asF32 stmtParams params)[k]? = params[k]?) := by
  refine ⟨List.length_mapIdx, fun k => ?_, fun k hk => ?_⟩
  · unfold refine_params
    exact List.getElem?_mapIdx ..
  · unfold refine_params
    rw [List.getElem?_mapIdx]
    have hnone : stmtParams[k]? = none := List.getElem?_eq_none hk
    rw [hnone]
    cases params[k]? <;> rfl

/-- C10 witness: a two-parameter vector against a one-type statement:
length preserved, position 0 refined, position 1 beyond the declared
count unchanged. -/
theorem refine_params_total_structure_witness :
    (refine_params id [PgType.int2] [OwnedParam.I64 7, OwnedParam.Text "a"]).length = 2 ∧
    (refine_params id [PgType.int2] [OwnedParam.I64 7, OwnedParam.Text "a"])[1]? =
      [OwnedParam.I64 7, OwnedParam.Text "a"][1]? :=
  ⟨(refine_params_total_structure id [PgType.int2]
      [OwnedParam.I64 7, OwnedParam.Text "a"]).1,
   (refine_params_total_structure id [PgType.int2]
      [OwnedParam.I64 7, OwnedParam.Text "a"]).2.2 1 (by decide)⟩

theorem exceptBind_ok {α β : Type} (a : α) (f : α → Except OxpgError β) :
    (Except.ok a >>= f) = f a := rfl

theorem exceptBind_err {α β : Type} (e : OxpgError) (f : α → Except OxpgError β) :
    ((Except.error e : Except OxpgError α) >>= f) = Except.error e := rfl

/-- An argument inside the closed runtime-type set whose payload pyo3
extraction accepts extracts successfully at any index, landing in
exactly the bucket the spec assigns to its runtime type. -/
theorem extractOne_ok_of_inSet (idx : Nat) (a : PyValue)
    (hin : (runtimeClass a).isSome = true)
    (hext : payloadExtractable a = true) :
    ∃ p, extractOne idx a = .ok p ∧ classOfParam p = runtimeClass a := by
  cases a with
  | pint i =>
      have hb : i64Min ≤ i ∧ i ≤ i64Max := by
        simpa [payloadExtractable] using hext
      refine ⟨.I64 i, ?_, rfl⟩
      simp only [extractOne]
      rw [if_pos hb]
  | pother typeName => simp [runtimeClass] at hin
  | pbool b => exact ⟨.Bool b, rfl, rfl⟩
  | pfloat bits => exact ⟨.F64 bits, rfl, rfl⟩
  | pstr s => exact ⟨.Text s, rfl, rfl⟩
  | pnone => exact ⟨.NullText, rfl, rfl⟩
  | pbytes bs => exact ⟨.Bytes bs, rfl, rfl⟩
  | pbytearray bs => exact ⟨.Bytes bs, rfl, rfl⟩
  | pdatetime dt tzAware =>
      have hb : tzAware = false := by
        simpa [payloadExtractable] using hext
      subst hb
      exact ⟨.TimestampTz (DateTimeUtc.fromNaiveUtc dt), rfl, rfl⟩
  | pdate d => exact ⟨.Date d, rfl, rfl⟩
  | ptime t tzAware =>
      have hb : tzAware = false := by
        simpa [payloadExtractable] using hext
      subst hb
      exact ⟨.Time t, rfl, rfl⟩
  | pdelta td => exact ⟨.Interval (intervalLiteral td.days td.seconds td.microseconds), rfl, rfl⟩

theorem extractParamsFrom_all_ok (args : List PyValue) :
    ∀ idx : Nat, (∀ a ∈ args, (runtimeClass a).isSome = true) →
    (∀ a ∈ args, payloadExtractable a = true) →
    ∃ ps, extractParamsFrom idx args = .ok ps ∧ ps.length = args.length ∧
      ∀ k : Nat, (ps[k]?).map classOfParam = (args[k]?).map runtimeClass := by
  induction args with
  | nil =>
      intro idx _ _
      exact ⟨[], rfl, rfl, fun k => rfl⟩
  | cons a rest ih =>
      intro idx hin hext
      obtain ⟨p, hp, hcp⟩ := extractOne_ok_of_inSet idx a (hin a (by simp))
        (hext a (by simp))
      obtain ⟨ps, hps, hlen, hcls⟩ := ih (idx + 1)
        (fun x hx => hin x (List.mem_cons_of_mem a hx))
        (fun x hx => hext x (List.mem_cons_of_mem a hx))
      refine ⟨p :: ps, ?_, by simp [hlen], ?_⟩
      · simp only [extractParamsFrom, hp, exceptBind_ok, hps]
      · intro k
        cases k with
        | zero => simp [hcp]
        | succ k2 => simpa using hcls k2

theorem extractParamsFrom_unsupported (pre : List PyValue) :
    ∀ (idx : Nat) (typeName : String) (rest : List PyValue),
    (∀ a ∈ pre, (runtimeClass a).isSome = true) →
    (∀ a ∈ pre, payloadExtractable a = true) →
    extractParamsFrom idx (pre ++ .pother typeName :: rest) =
      .error (.UnsupportedType (unsupportedTypeMsg (idx + pre.length) typeName)) := by
  induction pre with
  | nil =>
      intro idx typeName rest _ _
      simp only [List.nil_append, extractParamsFrom, extractOne, exceptBind_err,
        List.length_nil, Nat.add_zero]
  | cons a pre2 ih =>
      intro idx typeName rest hin hext
      obtain ⟨p, hp, _⟩ := extractOne_ok_of_inSet idx a (hin a (by simp))
        (hext a (by simp))
      have hrec := ih (idx + 1) typeName rest
        (fun x hx => hin x (List.mem_cons_of_mem a hx))
        (fun x hx => hext x (List.mem_cons_of_mem a hx))
      simp only [List.cons_append, extractParamsFrom, hp, exceptBind_ok, List.append_eq,
        hrec, exceptBind_err, List.length_cons]
      have harith : idx + 1 + pre2.length = idx + (pre2.length + 1) := by omega
      rw [harith]

/-- C2 counterexample: two arguments inside the claimed closed set that
Phase-1 extraction does not classify — the Python int 2^63 fails
`extract::<i64>()`, and a timezone-aware datetime fails the
chrono::NaiveDateTime extraction; each surfaces as InvalidParameter, not
as a classification. -/
theorem extract_params_large_int_cex :
    extract_params [PyValue.pint (2 ^ 63)] =
      .error (.InvalidParameter "Int arg 0: out of range for i64") ∧
    extract_params [PyValue.pdatetime ⟨0⟩ true] =
      .error (.InvalidParameter "DateTime arg 0: expected a datetime without tzinfo") :=
  ⟨rfl, rfl⟩

/-- C2 (amended): Phase-1 extraction classifies each argument by runtime
type into exactly one of boolean / widest integer / widest float / text
/ byte sequence / date / time / provisionally-zoned timestamp / duration
/ untyped null, provided every payload is one pyo3 extraction accepts:
an integer must fit the signed 64-bit range and a datetime or time must
be naive — an oversized int or a tz-aware datetime/time instead fails
extraction with InvalidParameter. Any argument whose runtime type is
outside the closed set makes the whole extraction fail with an
UnsupportedType error whose message names the argument's position and
its host type name. -/
theorem extract_params_classification (args : List PyValue)
    (hext : ∀ a ∈ args, payloadExtractable a = true) :
    ((∀ a ∈ args, (runtimeClass a).isSome = true) →
      ∃ ps, extract_params args = .ok ps ∧ ps.length = args.length ∧
        ∀ k : Nat, (ps[k]?).map classOfParam = (args[k]?).map runtimeClass) ∧
    (∀ (pre : List PyValue) (typeName : String) (rest : List PyValue),
      args = pre ++ PyValue.pother typeName :: rest →
      (∀ a ∈ pre, (runtimeClass a).isSome = true) →
      extract_params args =
        .error (.UnsupportedType (unsupportedTypeMsg pre.length typeName))) := by
  constructor
  · intro hin
    exact extractParamsFrom_all_ok args 0 hin hext
  · intro pre typeName rest heq hin
    subst heq
    have hextpre : ∀ a ∈ pre, payloadExtractable a = true :=
      fun a ha => hext a (List.mem_append_left _ ha)
    have h := extractParamsFrom_unsupported pre 0 typeName rest hin hextpre
    simpa using h

/-- C2 witness: a bool-and-text tuple classifies; a tuple whose second
argument is a Python dict fails whole with the UnsupportedType message
naming position 1 and the type name. -/
theorem extract_params_classification_witness :
    (∃ ps, extract_params [PyValue.pbool true, PyValue.pstr "x"] = .ok ps ∧
      ps.length = 2 ∧ ∀ k : Nat, (ps[k]?).map classOfParam =
        (([PyValue.pbool true, PyValue.pstr "x"] : List PyValue)[k]?).map runtimeClass) ∧
    extract_params [PyValue.pstr "x", PyValue.pother "dict"] =
      .error (.UnsupportedType (unsupportedTypeMsg 1 "dict")) := by
  constructor
  · have h := (extract_params_classification [PyValue.pbool true, PyValue.pstr "x"]
      (by decide)).1 (by decide)
    simpa using h
  · have h := (extract_params_classification [PyValue.pstr "x", PyValue.pother "dict"]
      (by decide)).2 [PyValue.pstr "x"] "dict" [] rfl (by decide)
    simpa using h

/-- C1: supplying a dsn together with any of host, user or password
fails with the InvalidParameter configuration error, and supplying no
dsn while host, user or password is absent fails with MissingParameter
naming an absent field; in both cases the error is returned with an
empty effect list — before any runtime creation or network connection
attempt. -/
theorem connect_config_error_before_io
    (dsnParse : String → Except OxpgError ConnFields)
    (runtimeRes connectRes : Except String Unit)
    (dsn host user password : Option String) (port : Nat) (db : String) :
    (dsn.isSome = true →
      (host.isSome = true ∨ user.isSome = true ∨ password.isSome = true) →
      connect dsnParse runtimeRes connectRes dsn host user password port db =
        (.error (.InvalidParameter
          "Cannot specify both DSN and individual connection parameters"), [])) ∧
    (dsn = none → (host = none ∨ user = none ∨ password = none) →
      ∃ f, connect dsnParse runtimeRes connectRes dsn host user password port db =
        (.error (.MissingParameter f), []) ∧
        ((f = "host" ∧ host = none) ∨ (f = "user" ∧ user = none) ∨
         (f = "password" ∧ password = none))) := by
  cases dsn <;> cases host <;> cases user <;> cases password <;>
    refine ⟨fun h1 h2 => ?_, fun h1 h2 => ?_⟩ <;>
    first
      | rfl
      | exact ⟨"host", rfl, Or.inl ⟨rfl, rfl⟩⟩
      | exact ⟨"user", rfl, Or.inr (Or.inl ⟨rfl, rfl⟩)⟩
      | exact ⟨"password", rfl, Or.inr (Or.inr ⟨rfl, rfl⟩)⟩
      | simp at h1 h2

/-- C1 witness: dsn plus host fails with InvalidParameter; all-absent
discrete fields fail with MissingParameter; both with no effects. -/
theorem connect_config_error_before_io_witness :
    connect (fun _ => .ok ⟨"h", "u", 5432, "d"⟩) (.ok ()) (.ok ())
        (some "postgresql://u:p@h/d") (some "h") none none 5432 "postgres" =
      (.error (.InvalidParameter
        "Cannot specify both DSN and individual connection parameters"), []) ∧
    ∃ f, connect (fun _ => .ok ⟨"h", "u", 5432, "d"⟩) (.ok ()) (.ok ())
        none none none none 5432 "postgres" =
      (.error (.MissingParameter f), []) ∧
      ((f = "host" ∧ (none : Option String) = none) ∨
       (f = "user" ∧ (none : Option String) = none) ∨
       (f = "password" ∧ (none : Option String) = none)) :=
  ⟨(connect_config_error_before_io (fun _ => .ok ⟨"h", "u", 5432, "d"⟩)
      (.ok ()) (.ok ()) (some "postgresql://u:p@h/d") (some "h") none none
      5432 "postgres").1 rfl (Or.inl rfl),
   (connect_config_error_before_io (fun _ => .ok ⟨"h", "u", 5432, "d"⟩)
      (.ok ()) (.ok ()) none none none none 5432 "postgres").2 rfl (Or.inl rfl)⟩

/-- C8: a prepare-time failure and an execute-time failure both surface
as the one ExecutionError kind carrying the driver's diagnostic text,
and ExecutionError maps to the DatabaseError exception class, for query
and execute alike — so the error kind alone cannot distinguish a
prepare-time from an execute-time failure. -/
theorem prepare_execute_same_error_kind (e1 e2 : String) (stmt : Statement)
    (asF32 : Nat → Nat) (args : List PyValue) (ps : List OwnedParam)
    (hext : extract_params args = .ok ps) :
    queryPipeline (.error e1) (fun _ _ => .error e2) asF32 args =
      .error (.ExecutionError ("Error while generating statement: " ++ e1)) ∧
    queryPipeline (.ok stmt) (fun _ _ => .error e2) asF32 args =
      .error (.ExecutionError ("Error while executing query: " ++ e2)) ∧
    executePipeline (.error e1) (fun _ _ => .error e2) asF32 args =
      .error (.ExecutionError ("Error while generating statement: " ++ e1)) ∧
    executePipeline (.ok stmt) (fun _ _ => .error e2) asF32 args =
      .error (.ExecutionError ("Error while executing query: " ++ e2)) ∧
    ∀ m : String, (oxpgErrToPy (.ExecutionError m)).1 = PyExcKind.DatabaseError := by
  refine ⟨?_, ?_, ?_, ?_, fun m => rfl⟩ <;>
    simp only [queryPipeline, executePipeline, hext, exceptBind_ok]

/-- C8 witness: empty argument tuple, trivial statement, diagnostics "p"
and "q". -/
theorem prepare_execute_same_error_kind_witness :
    queryPipeline (.error "p") (fun _ _ => .error "q") id [] =
      .error (.ExecutionError ("Error while generating statement: " ++ "p")) ∧
    queryPipeline (.ok ⟨[], []⟩) (fun _ _ => .error "q") id [] =
      .error (.ExecutionError ("Error while executing query: " ++ "q")) ∧
    executePipeline (.error "p") (fun _ _ => .error "q") id [] =
      .error (.ExecutionError ("Error while generating statement: " ++ "p")) ∧
    executePipeline (.ok ⟨[], []⟩) (fun _ _ => .error "q") id [] =
      .error (.ExecutionError ("Error while executing query: " ++ "q")) ∧
    ∀ m : String, (oxpgErrToPy (.ExecutionError m)).1 = PyExcKind.DatabaseError :=
  prepare_execute_same_error_kind "p" "q" ⟨[], []⟩ id [] [] rfl

/-- The dict produced by folding Python dict assignment over the decoded
columns in server column order. -/
def foldDict (acc : List (String × PyObj)) (row : RowData) : List (String × PyObj) :=
  row.foldl (fun a rc => setItem a rc.1.name (decodeValD rc)) acc

/-- Python dict lookup on the association-list model. -/
def lookupDict (k : String) : List (String × PyObj) → Option PyObj
  | [] => none
  | kv :: rest => if kv.1 = k then some kv.2 else lookupDict k rest

theorem exceptIsOk_exists {α : Type} {e : Except OxpgError α} (h : e.isOk = true) :
    ∃ v, e = .ok v := by
  cases e with
  | ok v => exact ⟨v, rfl⟩
  | error err => simp [Except.isOk, Except.toBool] at h

theorem setItem_not_mem (d : List (String × PyObj)) (k : String) (v : PyObj)
    (h : k ∉ d.map Prod.fst) : setItem d k v = d ++ [(k, v)] := by
  have hany : (d.any fun kv => kv.1 = k) = false := by
    cases hc : (d.any fun kv => kv.1 = k) with
    | false => rfl
    | true =>
        rw [List.any_eq_true] at hc
        obtain ⟨kv, hkv, hk⟩ := hc
        rw [decide_eq_true_eq] at hk
        exact absurd (hk ▸ List.mem_map_of_mem Prod.fst hkv) h
  simp [setItem, hany]

theorem rowToDictAux_append_ok (pre : RowData) :
    ∀ acc : List (String × PyObj),
    (∀ rc ∈ pre, (decodeCell rc.1 rc.2).isOk = true) →
    ∀ rest : RowData,
    rowToDictAux acc (pre ++ rest) = rowToDictAux (foldDict acc pre) rest := by
  induction pre with
  | nil => intro acc _ rest; rfl
  | cons rc pre2 ih =>
      intro acc hok rest
      obtain ⟨v, hv⟩ := exceptIsOk_exists (hok rc (by simp))
      have hval : decodeValD rc = v := by
        simp [decodeValD, hv, Except.toOption]
      have hstep : rowToDictAux acc ((rc :: pre2) ++ rest) =
          rowToDictAux (setItem acc rc.1.name v) (pre2 ++ rest) := by
        cases rc with
        | mk c cell =>
            simp only [List.cons_append, rowToDictAux, hv, exceptBind_ok, List.append_eq]
      rw [hstep, ih (setItem acc rc.1.name v) (fun x hx => hok x (List.mem_cons_of_mem rc hx)),
        show foldDict acc (rc :: pre2) = foldDict (setItem acc rc.1.name v) pre2 from by
          simp [foldDict, hval]]

theorem lookupDict_map_overwrite (k : String) (v : PyObj) (d : List (String × PyObj))
    (h : (d.any fun kv => kv.1 = k) = true) :
    lookupDict k (d.map fun kv => if kv.1 = k then (k, v) else kv) = some v := by
  induction d with
  | nil => simp at h
  | cons kv rest ih =>
      by_cases hk : kv.1 = k
      · simp [lookupDict, hk]
      · have hrest : (rest.any fun kv => kv.1 = k) = true := by
          rw [List.any_cons] at h
          rcases Bool.or_eq_true_iff.mp h with hh | hh
          · rw [decide_eq_true_eq] at hh
            exact absurd hh hk
          · exact hh
        simp [lookupDict, hk, ih hrest]

theorem lookupDict_append_fresh (k : String) (v : PyObj) (d : List (String × PyObj))
    (h : (d.any fun kv => kv.1 = k) = false) :
    lookupDict k (d ++ [(k, v)]) = some v := by
  induction d with
  | nil => simp [lookupDict]
  | cons kv rest ih =>
      rw [List.any_cons, Bool.or_eq_false_iff] at h
      have hk : ¬(kv.1 = k) := by
        intro he
        simp [he] at h
      simp [lookupDict, hk, ih h.2]

theorem lookupDict_setItem_self (d : List (String × PyObj)) (k : String) (v : PyObj) :
    lookupDict k (setItem d k v) = some v := by
  unfold setItem
  cases hc : (d.any fun kv => kv.1 = k) with
  | true =>
      simp only [hc, if_true]
      exact lookupDict_map_overwrite k v d hc
  | false =>
      simp only [hc, Bool.false_eq_true, if_false]
      exact lookupDict_append_fresh k v d hc

theorem lookupDict_map_other (k k2 : String) (v : PyObj) (hne : k ≠ k2)
    (d : List (String × PyObj)) :
    lookupDict k (d.map fun kv => if kv.1 = k2 then (k2, v) else kv) =
      lookupDict k d := by
  induction d with
  | nil => rfl
  | cons kv rest ih =>
      by_cases hk : kv.1 = k2
      · have h1 : ¬((k2 : String) = k) := fun he => hne he.symm
        have h2 : ¬(kv.1 = k) := fun he => hne ((hk.symm.trans he).symm)
        simp [lookupDict, hk, h1, h2, ih]
      · simp only [List.map_cons, if_neg hk]
        by_cases hk2 : kv.1 = k
        · simp [lookupDict, hk2]
        · simp [lookupDict, hk2, ih]

theorem lookupDict_append_other (k k2 : String) (v : PyObj) (hne : k ≠ k2)
    (d : List (String × PyObj)) :
    lookupDict k (d ++ [(k2, v)]) = lookupDict k d := by
  induction d with
  | nil =>
      have h1 : ¬((k2 : String) = k) := fun he => hne he.symm
      simp [lookupDict, h1]
  | cons kv rest ih =>
      by_cases hk : kv.1 = k
      · simp [lookupDict, hk]
      · simp [lookupDict, hk, ih]

theorem lookupDict_setItem_other (d : List (String × PyObj)) (k k2 : String)
    (v : PyObj) (hne : k ≠ k2) :
    lookupDict k (setItem d k2 v) = lookupDict k d := by
  unfold setItem
  cases hc : (d.any fun kv => kv.1 = k2) with
  | true =>
      simp only [hc, if_true]
      exact lookupDict_map_other k k2 v hne d
  | false =>
      simp only [hc, Bool.false_eq_true, if_false]
      exact lookupDict_append_other k k2 v hne d

theorem lookupDict_foldDict (row : RowData) :
    ∀ (acc : List (String × PyObj)) (k : String),
    lookupDict k (foldDict acc row) =
      match lastDecodeOf k row with
      | some v => some v
      | none => lookupDict k acc := by
  induction row with
  | nil => intro acc k; rfl
  | cons rc rest ih =>
      intro acc k
      have hstep : foldDict acc (rc :: rest) =
          foldDict (setItem acc rc.1.name (decodeValD rc)) rest := rfl
      rw [hstep, ih]
      cases hl : lastDecodeOf k rest with
      | some v => simp [lastDecodeOf, hl]
      | none =>
          by_cases hk : rc.1.name = k
          · simp [lastDecodeOf, hl, hk, lookupDict_setItem_self]
          · simp [lastDecodeOf, hl, hk,
              lookupDict_setItem_other acc k rc.1.name (decodeValD rc)
                (fun he => hk he.symm)]

theorem decodeCell_none_ok (c : Column) (hsup : supportedColumnType c.ty = true) :
    decodeCell c none = .ok .pyNone := by
  obtain ⟨nm, ty⟩ := c
  cases ty <;> first
    | rfl
    | simp [supportedColumnType] at hsup

theorem decodeCell_isOk_of_wellTyped (c : Column) (cell : Option SqlScalar)
    (hsup : supportedColumnType c.ty = true)
    (hwt : cellWellTyped c.ty cell = true) :
    (decodeCell c cell).isOk = true := by
  obtain ⟨nm, ty⟩ := c
  cases ty <;> first
    | (cases cell with
       | none => rfl
       | some s =>
           cases s <;> first
             | rfl
             | simp [cellWellTyped] at hwt)
    | simp [supportedColumnType] at hsup

theorem foldDict_nodup (row : RowData) :
    ∀ acc : List (String × PyObj),
    (∀ rc ∈ row, rc.1.name ∉ acc.map Prod.fst) →
    (row.map fun rc => rc.1.name).Nodup →
    foldDict acc row = acc ++ (row.map fun rc => (rc.1.name, decodeValD rc)) := by
  induction row with
  | nil =>
      intro acc _ _
      simp [foldDict]
  | cons rc rest ih =>
      intro acc hfresh hnd
      have hnd2 := hnd
      rw [List.map_cons, List.nodup_cons] at hnd2
      have h1 : rc.1.name ∉ acc.map Prod.fst := hfresh rc (by simp)
      have hstep : foldDict acc (rc :: rest) =
          foldDict (acc ++ [(rc.1.name, decodeValD rc)]) rest := by
        simp [foldDict, setItem_not_mem acc rc.1.name (decodeValD rc) h1]
      rw [hstep, ih (acc ++ [(rc.1.name, decodeValD rc)]) ?fresh hnd2.2]
      · simp
      case fresh =>
        intro x hx
        rw [List.map_append, List.mem_append]
        rintro (hmem | hmem)
        · exact hfresh x (List.mem_cons_of_mem rc hx) hmem
        · simp only [List.map_cons, List.map_nil, List.mem_singleton] at hmem
          exact hnd2.1 (hmem ▸ List.mem_map_of_mem (fun rc => rc.1.name) hx)

/-- C6: a row containing a column whose declared SQL type is outside the
supported decode set fails the whole decode (no mapping is returned),
and — provided the columns before it decode — the error is the
UnsupportedType error naming the column and its type name and OID. -/
theorem row_to_dict_unsupported_column_fails (pre : RowData) (c : Column)
    (typeName : String) (oid : Nat) (cell : Option SqlScalar) (rest : RowData)
    (hpre : ∀ rc ∈ pre, (decodeCell rc.1 rc.2).isOk = true)
    (hty : c.ty = .other typeName oid) :
    row_to_dict (pre ++ (c, cell) :: rest) =
      .error (.UnsupportedType (unsupportedColumnMsg typeName oid c.name)) := by
  unfold row_to_dict
  rw [rowToDictAux_append_ok pre [] hpre ((c, cell) :: rest)]
  have hdc : decodeCell c cell =
      .error (.UnsupportedType (unsupportedColumnMsg typeName oid c.name)) := by
    unfold decodeCell
    rw [hty]
  simp only [rowToDictAux, hdc, exceptBind_err]

/-- C6 witness: a well-typed bool column followed by an int4range column
(OID 3904): the whole row decode fails with the UnsupportedType message
naming the column and the OID. -/
theorem row_to_dict_unsupported_column_fails_witness :
    row_to_dict [(⟨"a", PgType.bool⟩, some (SqlScalar.sbool true)),
        (⟨"r", PgType.other "int4range" 3904⟩, none)] =
      .error (.UnsupportedType (unsupportedColumnMsg "int4range" 3904 "r")) :=
  row_to_dict_unsupported_column_fails
    [(⟨"a", PgType.bool⟩, some (SqlScalar.sbool true))]
    ⟨"r", PgType.other "int4range" 3904⟩ "int4range" 3904 none []
    (by decide) rfl

/-- C7: a row whose columns all have supported declared SQL types (with
cells of the driver's matching shapes) decodes to a mapping built by
Python dict insertion in server column order; when the column names are
distinct the mapping is exactly one entry per column, keyed by name, in
column order; under any key the stored value is the decode of the LAST
column with that name (a later duplicate overwrites the earlier entry);
and a SQL NULL cell at any supported type decodes to the host None, not
an error. -/
theorem row_to_dict_supported_decodes (row : RowData)
    (hsup : ∀ rc ∈ row, supportedColumnType rc.1.ty = true)
    (hwt : ∀ rc ∈ row, cellWellTyped rc.1.ty rc.2 = true) :
    row_to_dict row = .ok (foldDict [] row) ∧
    ((row.map fun rc => rc.1.name).Nodup →
      foldDict [] row = row.map fun rc => (rc.1.name, decodeValD rc)) ∧
    (∀ k, lookupDict k (foldDict [] row) = lastDecodeOf k row) ∧
    (∀ rc ∈ row, rc.2 = none → decodeCell rc.1 rc.2 = .ok .pyNone) := by
  have hok : ∀ rc ∈ row, (decodeCell rc.1 rc.2).isOk = true :=
    fun rc hrc => decodeCell_isOk_of_wellTyped rc.1 rc.2 (hsup rc hrc) (hwt rc hrc)
  refine ⟨?_, ?_, ?_, ?_⟩
  · unfold row_to_dict
    have h := rowToDictAux_append_ok row [] hok []
    rw [List.append_nil] at h
    exact h
  · intro hnd
    have h := foldDict_nodup row [] (by simp) hnd
    simpa using h
  · intro k
    have h := lookupDict_foldDict row [] k
    rw [h]
    cases lastDecodeOf k row <;> rfl
  · intro rc hrc h2
    rw [h2]
    exact decodeCell_none_ok rc.1 (hsup rc hrc)

/-- C7 witness: the row (id int4 = 1, name text = NULL): decoding
succeeds, produces entries in column order with the NULL decoding to
None, and lookup matches the last column of each name. -/
theorem row_to_dict_supported_decodes_witness :
    row_to_dict [(⟨"id", PgType.int4⟩, some (SqlScalar.si32 1)),
        (⟨"name", PgType.text⟩, none)] =
      .ok (foldDict [] [(⟨"id", PgType.int4⟩, some (SqlScalar.si32 1)),
        (⟨"name", PgType.text⟩, none)]) ∧
    foldDict [] [(⟨"id", PgType.int4⟩, some (SqlScalar.si32 1)),
        (⟨"name", PgType.text⟩, none)] =
      ([(⟨"id", PgType.int4⟩, some (SqlScalar.si32 1)),
        (⟨"name", PgType.text⟩, none)] : RowData).map
        (fun rc => (rc.1.name, decodeValD rc)) ∧
    lookupDict "name" (foldDict [] [(⟨"id", PgType.int4⟩, some (SqlScalar.si32 1)),
        (⟨"name", PgType.text⟩, none)]) =
      lastDecodeOf "name" [(⟨"id", PgType.int4⟩, some (SqlScalar.si32 1)),
        (⟨"name", PgType.text⟩, none)] :=
  ⟨(row_to_dict_supported_decodes
      [(⟨"id", PgType.int4⟩, some (SqlScalar.si32 1)), (⟨"name", PgType.text⟩, none)]
      (by decide) (by decide)).1,
   (row_to_dict_supported_decodes
      [(⟨"id", PgType.int4⟩, some (SqlScalar.si32 1)), (⟨"name", PgType.text⟩, none)]
      (by decide) (by decide)).2.1 (by decide),
   (row_to_dict_supported_decodes
      [(⟨"id", PgType.int4⟩, some (SqlScalar.si32 1)), (⟨"name", PgType.text⟩, none)]
      (by decide) (by decide)).2.2.1 "name"⟩

end Oxpg
